import Mathlib

/-!
Verification development for `pass-to-keepassxc.py`, a script that converts a
pass(1) password store into a KeePassXC-importable XML document.

Python strings are modelled as `List Char` (`PyStr`); Python `None`-able
values as `Option`; the mutable `xml.etree.ElementTree` element trees as the
inductive `XElem`; gpg subprocess results as `ProcResult`; and the password
store directory tree as the inductive `FsNode`.  Every definition is
translated from the source script (line references in the doc comments).
-/

set_option autoImplicit false

/-- A Python `str`, modelled as its list of characters. -/
abbrev PyStr := List Char

/-- Python `str.isspace` for the ASCII whitespace characters that can occur
here (space, tab, newline, carriage return, vertical tab, form feed). -/
def pyIsSpace (c : Char) : Bool :=
  c == ' ' || c == '\t' || c == '\n' || c == '\r' || c == '\x0B' || c == '\x0C'

/-- Python `s.strip()`: remove leading and trailing whitespace. -/
def pyStrip (s : PyStr) : PyStr :=
  ((s.dropWhile pyIsSpace).reverse.dropWhile pyIsSpace).reverse

/-- Python `s.startswith(pre)`. -/
def pyStartsWith (s pre : PyStr) : Bool :=
  pre.isPrefixOf s

/-- Python `s.removeprefix(pre)` (3.9+): drop `pre` when it is a prefix,
otherwise return `s` unchanged. -/
def pyRemovePrefix (s pre : PyStr) : PyStr :=
  if pre.isPrefixOf s then s.drop pre.length else s

/-- Python `s.removesuffix(suf)` (3.9+): drop `suf` when it is a nonempty
suffix, otherwise return `s` unchanged. -/
def pyRemoveSuffix (s suf : PyStr) : PyStr :=
  if suf ≠ [] ∧ suf.isSuffixOf s then s.take (s.length - suf.length) else s

/-- Python `s.split('\n')`: split on every newline; never returns an empty
list (`''.split('\n') == ['']`). -/
def pySplitNl : PyStr → List PyStr
  | [] => [[]]
  | c :: cs =>
    if c = '\n' then [] :: pySplitNl cs
    else
      match pySplitNl cs with
      | [] => [[c]]
      | l :: ls => (c :: l) :: ls

/-- Python newline `join` of a list of strings. -/
def pyJoinNl (xs : List PyStr) : PyStr :=
  List.intercalate ['\n'] xs

/-- Python `a or b` for `a` an optional string: `None` and the empty string
are falsy, so both fall back to `b`. -/
def pyOr (a : Option PyStr) (b : PyStr) : PyStr :=
  match a with
  | some s => if s.isEmpty then b else s
  | none => b

/-- `parse_pass_format` (pass-to-keepassxc.py lines 146-161).

`it = src.split('\n')`; `password = it[0]` (the split result is never empty,
modelled with `headD`); then the `otpauth://`, `login:` and `url:` markers
are each looked up with `next(...)` over the **current whole list**
(`list.remove` deletes the first equal element, `List.erase`); `login:` /
`url:` values get the prefix removed and are stripped; finally
notes are the newline-join of `it[1:]` on the list after the removals.  Returns
`(password, notes, totp, username, url)` with `none` for Python `None`. -/
def parse_pass_format (src : PyStr) :
    PyStr × PyStr × Option PyStr × Option PyStr × Option PyStr :=
  let it0 := pySplitNl src
  let password := it0.headD []
  let totp := it0.find? (fun x => pyStartsWith x "otpauth://".data)
  let it1 := match totp with | some t => it0.erase t | none => it0
  let usernameLine := it1.find? (fun x => pyStartsWith x "login:".data)
  let it2 := match usernameLine with | some u => it1.erase u | none => it1
  let username := usernameLine.map (fun u => pyStrip (pyRemovePrefix u "login:".data))
  let urlLine := it2.find? (fun x => pyStartsWith x "url:".data)
  let it3 := match urlLine with | some u => it2.erase u | none => it2
  let url := urlLine.map (fun u => pyStrip (pyRemovePrefix u "url:".data))
  let notes := pyJoinNl (it3.drop 1)
  (password, notes, totp, username, url)

/-- An `xml.etree.ElementTree.Element`: tag, attributes (insertion order, as
set by `Element.set`), optional text (a Python `str` or `None`), and the
list of child elements.  `tail` is never set by the script, so it is not
modelled. -/
inductive XElem where
  | mk (tag : PyStr) (attrs : List (PyStr × PyStr)) (text : Option PyStr)
      (children : List XElem)

/-- Tag of an element. -/
def XElem.tag : XElem → PyStr
  | .mk t _ _ _ => t

/-- Attribute list of an element. -/
def XElem.attrs : XElem → List (PyStr × PyStr)
  | .mk _ a _ _ => a

/-- Text of an element (`none` models Python `None`). -/
def XElem.text : XElem → Option PyStr
  | .mk _ _ t _ => t

/-- Children of an element. -/
def XElem.children : XElem → List XElem
  | .mk _ _ _ c => c

/-- A default element, used as the `headD` fallback when projecting out of
concrete trees. -/
def emptyElem : XElem := .mk [] [] none []

/-- `xml.etree.ElementTree._escape_cdata` on one character: text content has
exactly `&`, `<`, `>` replaced (sequential `str.replace` with `&` first,
which equals this character-wise map). -/
def escapeCdataChar (c : Char) : PyStr :=
  if c = '&' then "&amp;".data
  else if c = '<' then "&lt;".data
  else if c = '>' then "&gt;".data
  else [c]

/-- `xml.etree.ElementTree._escape_cdata` applied to a whole text. -/
def escape_cdata (s : PyStr) : PyStr :=
  (s.map escapeCdataChar).flatten

/-- `xml.etree.ElementTree._escape_attrib` on one character: attribute
values additionally escape `"` and the whitespace controls. -/
def escapeAttribChar (c : Char) : PyStr :=
  if c = '&' then "&amp;".data
  else if c = '<' then "&lt;".data
  else if c = '>' then "&gt;".data
  else if c = '"' then "&quot;".data
  else if c = '\r' then "&#13;".data
  else if c = '\n' then "&#10;".data
  else if c = '\t' then "&#09;".data
  else [c]

/-- `xml.etree.ElementTree._escape_attrib` applied to a whole value. -/
def escape_attrib (s : PyStr) : PyStr :=
  (s.map escapeAttribChar).flatten

/-- Serialization of an attribute list, as `_serialize_xml` writes it:
a space, the key, `="`, the escaped value, `"`. -/
def serializeAttrs (attrs : List (PyStr × PyStr)) : PyStr :=
  (attrs.map (fun kv => " ".data ++ kv.1 ++ "=\"".data ++ escape_attrib kv.2 ++ "\"".data)).flatten

mutual

/-- `ET.tostring(elem, encoding='unicode')` via `_serialize_xml` with the
default `short_empty_elements=True`: an element with falsy text (Python
`None` or the empty string) and no children is written `<tag ... />`;
otherwise `<tag ...>`, the escaped text when truthy, the children, and
`</tag>`. -/
def serializeElem : XElem → PyStr
  | .mk tag attrs text children =>
    if (text.getD []).isEmpty && children.isEmpty then
      "<".data ++ tag ++ serializeAttrs attrs ++ " />".data
    else
      "<".data ++ tag ++ serializeAttrs attrs ++ ">".data
        ++ (match text with
            | some t => if t.isEmpty then [] else escape_cdata t
            | none => [])
        ++ serializeChildren children ++ "</".data ++ tag ++ ">".data

/-- Serialization of a child list in order (children carry no tails here). -/
def serializeChildren : List XElem → PyStr
  | [] => []
  | e :: es => serializeElem e ++ serializeChildren es

end

/-- The `<String><Key>k</Key><Value ProtectInMemory="True">v</Value></String>`
subtree appended by `KeepassXCEntry.add_string_field` (lines 81-88).  Note
that line 87 sets `ProtectInMemory` on **every** field's `Value`,
unconditionally. -/
def stringFieldElem (k : PyStr) (v : Option PyStr) : XElem :=
  .mk "String".data []
    none
    [ .mk "Key".data [] (some k) [],
      .mk "Value".data [("ProtectInMemory".data, "True".data)] v [] ]

/-- `KeepassXCEntry.add_string_field` (lines 81-88): append the field's
`String` subtree to the entry root. -/
def add_string_field (root : XElem) (k : PyStr) (v : Option PyStr) : XElem :=
  match root with
  | .mk tag attrs text children => .mk tag attrs text (children ++ [stringFieldElem k v])

/-- `KeepassXCEntry.add_auto_type` (lines 91-98). -/
def add_auto_type (root : XElem) : XElem :=
  match root with
  | .mk tag attrs text children =>
    .mk tag attrs text
      (children ++
        [ .mk "AutoType".data [] none
            [ .mk "Enabled".data [] (some "True".data) [],
              .mk "DataTransferObfuscation".data [] (some "0".data) [],
              .mk "DefaultSequence".data [] none [] ] ])

/-- `KeepassXCEntry.__init__` (lines 66-74): build the `Entry` element with
six `String` fields added in the order Notes, UserName, Password, URL,
Title, otp, then the `AutoType` block.  Parameters are `Option PyStr`
because the call sites pass Python `None` for absent parsed values. -/
def KeepassXCEntry.init (username password url title notes totp : Option PyStr) : XElem :=
  add_auto_type
    (add_string_field
      (add_string_field
        (add_string_field
          (add_string_field
            (add_string_field
              (add_string_field (.mk "Entry".data [] none []) "Notes".data notes)
              "UserName".data username)
            "Password".data password)
          "URL".data url)
        "Title".data title)
      "otp".data totp)

/-- The `String` children of an entry element (its six named fields). -/
def stringFields (e : XElem) : List XElem :=
  e.children.filter (fun c => c.tag == "String".data)

/-- The `Key` text of one `String` field subtree. -/
def XElem.keyOf : XElem → Option PyStr
  | .mk _ _ _ (k :: _) => k.text
  | _ => none

/-- The attribute list of the `Value` element of one `String` field subtree. -/
def XElem.valAttrs : XElem → Option (List (PyStr × PyStr))
  | .mk _ _ _ (_ :: v :: _) => some v.attrs
  | _ => none

/-- The `Value` texts of an entry's `String` fields, in field order. -/
def fieldVals (e : XElem) : List (Option PyStr) :=
  (stringFields e).map (fun f => ((f.children.drop 1).headD emptyElem).text)

/-- The fixed key sequence of a built entry. -/
def sixKeys : List (Option PyStr) :=
  [some "Notes".data, some "UserName".data, some "Password".data,
   some "URL".data, some "Title".data, some "otp".data]

/-- The `<Group><Name>name</Name>entries...</Group>` element created by
`KeepassXCDump.add_group` (lines 124-128). -/
def groupElem (name : PyStr) (entries : List XElem) : XElem :=
  .mk "Group".data [] none (.mk "Name".data [] (some name) [] :: entries)

/-- State of a `KeepassXCDump` (lines 101-132).  The Python object holds the
mutable `KeePassFile` tree and `self.root`, the inner `Group` element whose
first child is `<Name>Root</Name>`; the only mutation is appending group
elements after that `Name`, so the state is that growing child list. -/
structure KeepassXCDump where
  rootChildren : List XElem

/-- `KeepassXCDump.__init__` (lines 116-121): no groups yet. -/
def KeepassXCDump.init : KeepassXCDump := ⟨[]⟩

/-- `KeepassXCDump.add_group` (lines 124-128): append one group element
built from the name and the entry roots, in order. -/
def KeepassXCDump.add_group (d : KeepassXCDump) (name : PyStr) (entries : List XElem) :
    KeepassXCDump :=
  ⟨d.rootChildren ++ [groupElem name entries]⟩

/-- The full `KeePassFile` element tree held by a dump (lines 116-121). -/
def KeepassXCDump.toElem (d : KeepassXCDump) : XElem :=
  .mk "KeePassFile".data [] none
    [ .mk "Root".data [] none
        [ .mk "Group".data [] none
            (.mk "Name".data [] (some "Root".data) [] :: d.rootChildren) ] ]

/-- `KeepassXCDump.__str__` (lines 131-132):
`ET.tostring(self.KeePassFile, encoding='unicode')` (no XML declaration). -/
def KeepassXCDump.dumpStr (d : KeepassXCDump) : PyStr :=
  serializeElem d.toElem

/-- A sequence of `add_group` calls starting from a fresh dump. -/
def buildDump (gs : List (PyStr × List XElem)) : KeepassXCDump :=
  gs.foldl (fun d pr => d.add_group pr.1 pr.2) KeepassXCDump.init

/-- An element is one produced by `KeepassXCEntry.__init__`. -/
def isBuiltEntry (e : XElem) : Prop :=
  ∃ u p l t n o, e = KeepassXCEntry.init u p l t n o

/-- Continuation byte check for strict UTF-8 decoding. -/
def isUtf8Cont (b : Nat) : Bool :=
  0x80 ≤ b && b ≤ 0xBF

/-- Second-byte range of a three-byte UTF-8 sequence (excludes overlong
forms after `0xE0` and surrogates after `0xED`). -/
def utf8SecondOk3 (b b1 : Nat) : Bool :=
  if b = 0xE0 then 0xA0 ≤ b1 && b1 ≤ 0xBF
  else if b = 0xED then 0x80 ≤ b1 && b1 ≤ 0x9F
  else isUtf8Cont b1

/-- Second-byte range of a four-byte UTF-8 sequence (excludes overlong forms
after `0xF0` and code points past U+10FFFF after `0xF4`). -/
def utf8SecondOk4 (b b1 : Nat) : Bool :=
  if b = 0xF0 then 0x90 ≤ b1 && b1 ≤ 0xBF
  else if b = 0xF4 then 0x80 ≤ b1 && b1 ≤ 0x8F
  else isUtf8Cont b1

/-- Strict UTF-8 decoding of a byte sequence, as Python's
`bytes.decode('utf-8')`: `none` models an uncaught `UnicodeDecodeError`. -/
def utf8Decode : List Nat → Option PyStr
  | [] => some []
  | b :: bs =>
    if b ≤ 0x7F then
      (utf8Decode bs).map (fun r => Char.ofNat b :: r)
    else if 0xC2 ≤ b && b ≤ 0xDF then
      match bs with
      | b1 :: bs2 =>
        if isUtf8Cont b1 then
          (utf8Decode bs2).map (fun r => Char.ofNat ((b - 0xC0) * 0x40 + (b1 - 0x80)) :: r)
        else none
      | [] => none
    else if 0xE0 ≤ b && b ≤ 0xEF then
      match bs with
      | b1 :: b2 :: bs3 =>
        if utf8SecondOk3 b b1 && isUtf8Cont b2 then
          (utf8Decode bs3).map
            (fun r => Char.ofNat (((b - 0xE0) * 0x40 + (b1 - 0x80)) * 0x40 + (b2 - 0x80)) :: r)
        else none
      | _ => none
    else if 0xF0 ≤ b && b ≤ 0xF4 then
      match bs with
      | b1 :: b2 :: b3 :: bs4 =>
        if utf8SecondOk4 b b1 && isUtf8Cont b2 && isUtf8Cont b3 then
          (utf8Decode bs4).map
            (fun r =>
              Char.ofNat ((((b - 0xF0) * 0x40 + (b1 - 0x80)) * 0x40 + (b2 - 0x80)) * 0x40
                + (b3 - 0x80)) :: r)
        else none
      | _ => none
    else none

/-- The `subprocess.CompletedProcess` returned by
`subprocess.run(["gpg", ...], capture_output=True)`: the gpg process's exit
status and captured standard output bytes. -/
structure ProcResult where
  returncode : Int
  stdout : List Nat

/-- `decrypt` (lines 172-174): `out.stdout.decode('utf-8')`.  The function
never inspects `out.returncode` (there is no `check=True`), so a failed gpg
run with empty captured output decodes to the empty string; `none` models
the `UnicodeDecodeError` raised on undecodable bytes. -/
def decrypt (p : ProcResult) : Option PyStr :=
  utf8Decode p.stdout

/-- A node of the password store directory tree; a file carries the gpg
result that decrypting it produces. -/
inductive FsNode where
  | dir (name : PyStr) (children : List FsNode)
  | file (name : PyStr) (proc : ProcResult)

/-- The base name of a node. -/
def FsNode.nodeName : FsNode → PyStr
  | .dir n _ => n
  | .file n _ => n

/-- The filter `x.name[0] != '.'` applied at every traversal level
(filesystem names are never empty, so the index cannot fail). -/
def notHidden (n : FsNode) : Bool :=
  n.nodeName.head? != some '.'

/-- `find_files` (lines 164-169): walk a directory's children in order,
skipping hidden names, descending into subdirectories and yielding files.
Each yielded file is paired with its immediate parent directory's name,
which the caller reads back as `entry.parent.name` (line 187). -/
def find_files (parent : PyStr) : List FsNode → List (PyStr × PyStr × ProcResult)
  | [] => []
  | FsNode.dir nm cs :: rest =>
    (if notHidden (FsNode.dir nm cs) then find_files nm cs else [])
      ++ find_files parent rest
  | FsNode.file nm p :: rest =>
    (if notHidden (FsNode.file nm p) then [(parent, nm, p)] else [])
      ++ find_files parent rest

/-- The per-file loop of the directory branch (lines 186-196): for each
found file take the base name with `.gpg` stripped as username/title,
decrypt (a `UnicodeDecodeError`, modelled by `none`, skips the file with
`continue`), parse, pick the parsed url or fall back to the parent
directory name, and collect the built entry.  The parsed username is
discarded (`_` on line 194). -/
def processDirFiles : List (PyStr × PyStr × ProcResult) → List XElem
  | [] => []
  | (parent, name, proc) :: rest =>
    let username := pyRemoveSuffix name ".gpg".data
    match decrypt proc with
    | none => processDirFiles rest
    | some contents =>
      match parse_pass_format contents with
      | (password, notes, totp, _, url_parsed) =>
        KeepassXCEntry.init (some username) (some password)
            (some (pyOr url_parsed parent)) (some username) (some notes) totp
          :: processDirFiles rest

/-- The top-level loop of `__main__` (lines 182-209) over the store
directory's children, skipping hidden names.  A subdirectory becomes a
group (suffix-stripped name) holding the entries of all its files; the
group is added even when every file was skipped.  A plain file becomes its
own group, but a `UnicodeDecodeError` hits `continue` (line 205) **before**
`add_group` (line 209), so no group is added for it; when decoding
succeeds, the parsed username is used for both `username` and `title`
(lines 206-208) and the parsed url falls back to the suffix-stripped
filename. -/
def processTop (d : KeepassXCDump) : List FsNode → KeepassXCDump
  | [] => d
  | FsNode.dir name cs :: rest =>
    if notHidden (FsNode.dir name cs) then
      processTop
        (d.add_group (pyRemoveSuffix name ".gpg".data)
          (processDirFiles (find_files name cs)))
        rest
    else processTop d rest
  | FsNode.file name proc :: rest =>
    if notHidden (FsNode.file name proc) then
      match decrypt proc with
      | none => processTop d rest
      | some contents =>
        match parse_pass_format contents with
        | (password, notes, totp, username, url_parsed) =>
          processTop
            (d.add_group (pyRemoveSuffix name ".gpg".data)
              [KeepassXCEntry.init username (some password)
                (some (pyOr url_parsed (pyRemoveSuffix name ".gpg".data)))
                username (some notes) totp])
            rest
    else processTop d rest

/-- The whole `__main__` run after the argument check (lines 180-211): build
the dump over the store's children, print it, `sys.exit(0)`.  Nothing in
the loop raises in this model, so the exit status is always `0`. -/
def runMain (top : List FsNode) : KeepassXCDump × Nat :=
  (processTop KeepassXCDump.init top, 0)

/-- The guard `len(sys.argv) < 1` of line 178, deciding whether line 179's
`sys.exit(1)` runs. -/
def main_argc_check (argv : List PyStr) : Bool :=
  decide (argv.length < 1)

/-- The read of `sys.argv[1]` on line 180; `none` models the uncaught
`IndexError` raised when no positional argument was given. -/
def main_store_dir (argv : List PyStr) : Option PyStr :=
  argv[1]?

/-- Decoder for the three entities `_escape_cdata` produces; used to state
that the escaping of `&`, `<`, `>` is faithful (reversible). -/
def unescapeCdata : PyStr → PyStr
  | [] => []
  | c :: rest =>
    if c = '&' then
      match rest with
      | 'a' :: 'm' :: 'p' :: ';' :: rest2 => '&' :: unescapeCdata rest2
      | 'l' :: 't' :: ';' :: rest2 => '<' :: unescapeCdata rest2
      | 'g' :: 't' :: ';' :: rest2 => '>' :: unescapeCdata rest2
      | other => c :: unescapeCdata other
    else c :: unescapeCdata rest
termination_by s => s.length
decreasing_by all_goals simp_arith

/-- Sanity check (the spec's marker-extraction scenario): all three markers
are found, prefix-stripped and trimmed where applicable, and excluded from
the notes. -/
lemma parse_marker_scenario :
    parse_pass_format "secret\nlogin: bob\nurl: example.com\notpauth://totp/X\nline4".data
      = ("secret".data, "line4".data, some "otpauth://totp/X".data,
         some "bob".data, some "example.com".data) := by decide

/-- Sanity check (the spec's default-fallback scenario): a record with no
marker lines parses to password, notes, and three absent fields. -/
lemma parse_default_scenario :
    parse_pass_format "p@ss\nsome note".data
      = ("p@ss".data, "some note".data, none, none, none) := by decide

/-- Sanity check: serialization of a dump holding one empty group. -/
lemma dump_serialize_scenario :
    KeepassXCDump.dumpStr (KeepassXCDump.init.add_group "work".data []) =
      "<KeePassFile><Root><Group><Name>Root</Name><Group><Name>work</Name></Group></Group></Root></KeePassFile>".data := by
  decide

/-- Sanity check: a failed gpg run with empty captured output decodes to the
empty string, while genuinely undecodable bytes raise. -/
lemma decrypt_scenarios :
    decrypt ⟨1, []⟩ = some []
  ∧ decrypt ⟨0, [0xFF]⟩ = none
  ∧ decrypt ⟨0, [112, 119, 10, 108, 111, 103, 105, 110, 58, 32, 98, 111, 98]⟩
      = some "pw\nlogin: bob".data := by
  refine ⟨by decide, by decide, by decide⟩

/-- `pySplitNl` always yields at least one piece, and the first piece is the
run of characters before the first newline. -/
lemma pySplitNl_cons (s : PyStr) :
    ∃ l ls, pySplitNl s = l :: ls ∧ l = s.takeWhile (fun c => c != '\n') := by
  induction s with
  | nil => exact ⟨[], [], rfl, rfl⟩
  | cons c cs ih =>
    by_cases hc : c = '\n'
    · subst hc
      exact ⟨[], pySplitNl cs, by simp [pySplitNl], by simp [List.takeWhile_cons]⟩
    · obtain ⟨l, ls, h1, h2⟩ := ih
      refine ⟨c :: l, ls, ?_, ?_⟩
      · simp [pySplitNl, hc, h1]
      · simp [List.takeWhile_cons, hc, h2]

/-- The `String` children of a built entry are its six fields, in the
insertion order of `KeepassXCEntry.__init__`. -/
lemma stringFields_init (u p l t n o : Option PyStr) :
    stringFields (KeepassXCEntry.init u p l t n o) =
      [stringFieldElem "Notes".data n, stringFieldElem "UserName".data u,
       stringFieldElem "Password".data p, stringFieldElem "URL".data l,
       stringFieldElem "Title".data t, stringFieldElem "otp".data o] := rfl

/-- A built entry's field keys are exactly the six fixed keys, in order. -/
lemma stringFields_keyOf_init (u p l t n o : Option PyStr) :
    (stringFields (KeepassXCEntry.init u p l t n o)).map XElem.keyOf = sixKeys := rfl

/-- Unfolding `escape_cdata` one character at a time. -/
lemma escape_cdata_cons (c : Char) (s : PyStr) :
    escape_cdata (c :: s) = escapeCdataChar c ++ escape_cdata s := by
  simp [escape_cdata]

/-- The per-character escape never emits a raw angle bracket. -/
lemma escapeCdataChar_no_angle (c : Char) :
    '<' ∉ escapeCdataChar c ∧ '>' ∉ escapeCdataChar c := by
  by_cases h1 : c = '&'
  · subst h1; decide
  · by_cases h2 : c = '<'
    · subst h2; decide
    · by_cases h3 : c = '>'
      · subst h3; decide
      · simp only [escapeCdataChar, if_neg h1, if_neg h2, if_neg h3, List.mem_singleton]
        exact ⟨fun h => h2 h.symm, fun h => h3 h.symm⟩

/-- Escaped text content contains no raw `<` or `>`. -/
lemma escape_cdata_no_angle (s : PyStr) :
    '<' ∉ escape_cdata s ∧ '>' ∉ escape_cdata s := by
  induction s with
  | nil => simp [escape_cdata]
  | cons c s ih =>
    rw [escape_cdata_cons]
    constructor <;> intro hmem <;> rcases List.mem_append.mp hmem with h | h
    · exact (escapeCdataChar_no_angle c).1 h
    · exact ih.1 h
    · exact (escapeCdataChar_no_angle c).2 h
    · exact ih.2 h

/-- Decoding the entities recovers the original text: the escaping of `&`,
`<`, `>` is exactly the standard, reversible one. -/
lemma unescape_escape (s : PyStr) : unescapeCdata (escape_cdata s) = s := by
  induction s with
  | nil => simp [escape_cdata, unescapeCdata]
  | cons c s ih =>
    rw [escape_cdata_cons]
    by_cases h1 : c = '&'
    · subst h1; simp only [escapeCdataChar, if_pos rfl]
      show unescapeCdata ('&' :: 'a' :: 'm' :: 'p' :: ';' :: escape_cdata s) = '&' :: s
      simp [unescapeCdata, ih]
    · by_cases h2 : c = '<'
      · subst h2
        simp only [escapeCdataChar]
        show unescapeCdata ('&' :: 'l' :: 't' :: ';' :: escape_cdata s) = '<' :: s
        simp [unescapeCdata, ih]
      · by_cases h3 : c = '>'
        · subst h3
          simp only [escapeCdataChar]
          show unescapeCdata ('&' :: 'g' :: 't' :: ';' :: escape_cdata s) = '>' :: s
          simp [unescapeCdata, ih]
        · simp only [escapeCdataChar, if_neg h1, if_neg h2, if_neg h3, List.singleton_append]
          rw [unescapeCdata.eq_def]
          simp [h1, ih]

/-- The per-character escape leaves apostrophes and double quotes alone. -/
lemma escapeCdataChar_count_q (c q : Char) (hq : q = Char.ofNat 39 ∨ q = Char.ofNat 34) :
    (escapeCdataChar c).count q = ([c] : PyStr).count q := by
  by_cases h1 : c = '&'
  · subst h1; rcases hq with rfl | rfl <;> decide
  · by_cases h2 : c = '<'
    · subst h2; rcases hq with rfl | rfl <;> decide
    · by_cases h3 : c = '>'
      · subst h3; rcases hq with rfl | rfl <;> decide
      · simp [escapeCdataChar, h1, h2, h3]

/-- Escaping text content preserves every apostrophe and double quote
verbatim. -/
lemma escape_cdata_count_q (s : PyStr) (q : Char)
    (hq : q = Char.ofNat 39 ∨ q = Char.ofNat 34) :
    (escape_cdata s).count q = s.count q := by
  induction s with
  | nil => rfl
  | cons c s ih =>
    rw [escape_cdata_cons, List.count_append, ih, escapeCdataChar_count_q c q hq,
      ← List.count_append, List.singleton_append]

/-- Serialization of a `<Name>` element with nonempty text routes the text
through `_escape_cdata` and nothing else. -/
lemma serializeElem_name_elem (v : PyStr) (h : v ≠ []) :
    serializeElem (XElem.mk "Name".data [] (some v) [])
      = "<Name>".data ++ escape_cdata v ++ "</Name>".data := by
  cases v with
  | nil => exact absurd rfl h
  | cons c cs => simp [serializeElem, serializeChildren, serializeAttrs]

/-- Serialization of a field `<Value>` element with nonempty text routes the
text through `_escape_cdata`. -/
lemma serializeElem_value_elem (v : PyStr) (h : v ≠ []) :
    serializeElem (XElem.mk "Value".data [("ProtectInMemory".data, "True".data)] (some v) [])
      = "<Value ProtectInMemory=\"True\">".data ++ escape_cdata v ++ "</Value>".data := by
  cases v with
  | nil => exact absurd rfl h
  | cons c cs =>
    simp [serializeElem, serializeChildren, serializeAttrs, escape_attrib, escapeAttribChar]

/-- C2 counterexample: on the group name `a"b'c&d` the serialized document
keeps the double quote and the apostrophe verbatim (one raw occurrence of
each in the output, no `&quot;`/`&apos;`), escaping only the ampersand.
The claim that all five reserved characters are escaped is therefore false
on the code. -/
theorem pass_C2_counterexample :
    KeepassXCDump.dumpStr (KeepassXCDump.init.add_group "a\"b'c&d".data [])
      = "<KeePassFile><Root><Group><Name>Root</Name><Group><Name>a\"b'c&amp;d</Name></Group></Group></Root></KeePassFile>".data
  ∧ (KeepassXCDump.dumpStr (KeepassXCDump.init.add_group "a\"b'c&d".data [])).count
      (Char.ofNat 39) = 1
  ∧ (KeepassXCDump.dumpStr (KeepassXCDump.init.add_group "a\"b'c&d".data [])).count
      (Char.ofNat 34) = 1 := by
  refine ⟨by decide, by decide, by decide⟩

/-- C2 amended: in group names and field values the serializer escapes
exactly `&`, `<` and `>` — faithfully and reversibly (the escaped text has
no raw angle bracket, and decoding the three standard entities recovers the
original) — while `"` and `'` are emitted verbatim (their counts are
unchanged); this is the standard escaping for XML *text content*, which
never requires quote escaping. -/
theorem pass_C2_amended (v : PyStr) (h : v ≠ []) :
    serializeElem (XElem.mk "Name".data [] (some v) [])
      = "<Name>".data ++ escape_cdata v ++ "</Name>".data
  ∧ serializeElem (XElem.mk "Value".data [("ProtectInMemory".data, "True".data)] (some v) [])
      = "<Value ProtectInMemory=\"True\">".data ++ escape_cdata v ++ "</Value>".data
  ∧ unescapeCdata (escape_cdata v) = v
  ∧ '<' ∉ escape_cdata v
  ∧ '>' ∉ escape_cdata v
  ∧ (escape_cdata v).count (Char.ofNat 39) = v.count (Char.ofNat 39)
  ∧ (escape_cdata v).count (Char.ofNat 34) = v.count (Char.ofNat 34) :=
  ⟨serializeElem_name_elem v h, serializeElem_value_elem v h, unescape_escape v,
   (escape_cdata_no_angle v).1, (escape_cdata_no_angle v).2,
   escape_cdata_count_q v _ (Or.inl rfl), escape_cdata_count_q v _ (Or.inr rfl)⟩

/-- Witness for the amended C2 at the concrete value `a&b'`. -/
theorem pass_C2_amended_witness :
    ("a&b'".data : PyStr) ≠ []
  ∧ (serializeElem (XElem.mk "Name".data [] (some "a&b'".data) [])
      = "<Name>".data ++ escape_cdata "a&b'".data ++ "</Name>".data
  ∧ serializeElem
        (XElem.mk "Value".data [("ProtectInMemory".data, "True".data)] (some "a&b'".data) [])
      = "<Value ProtectInMemory=\"True\">".data ++ escape_cdata "a&b'".data ++ "</Value>".data
  ∧ unescapeCdata (escape_cdata "a&b'".data) = "a&b'".data
  ∧ '<' ∉ escape_cdata "a&b'".data
  ∧ '>' ∉ escape_cdata "a&b'".data
  ∧ (escape_cdata "a&b'".data).count (Char.ofNat 39) = "a&b'".data.count (Char.ofNat 39)
  ∧ (escape_cdata "a&b'".data).count (Char.ofNat 34) = "a&b'".data.count (Char.ofNat 34)) :=
  ⟨by decide, pass_C2_amended "a&b'".data (by decide)⟩

/-- C1: the claim says marker scanning considers only the lines from index 1
onward, so a first line beginning with a marker would stay the password,
never be consumed by a marker, and notes would be the lines from index 1
onward.  The code instead scans the whole list: on the blob
`"url: x\nnote1\nnote2"` the first line is consumed by the `url:` marker
(yielding `url = "x"` instead of no url) and, because the removal shifts
the list, `notes` becomes `"note2"`, silently dropping `"note1"`. -/
theorem pass_C1_eval :
    parse_pass_format "url: x\nnote1\nnote2".data
      = ("url: x".data, "note2".data, none, none, some "x".data) := by decide

/-- C6: a built entry carries exactly six `String` fields, in the fixed key
order Notes, UserName, Password, URL, Title, otp, whatever the inputs are
(none is ever omitted); and a field whose input is absent (`none`)
serializes exactly like a field holding the empty string, i.e. as
`<Value ProtectInMemory="True" />`. -/
theorem pass_C6_fields (u p l t n o : Option PyStr) :
    stringFields (KeepassXCEntry.init u p l t n o) =
      [stringFieldElem "Notes".data n, stringFieldElem "UserName".data u,
       stringFieldElem "Password".data p, stringFieldElem "URL".data l,
       stringFieldElem "Title".data t, stringFieldElem "otp".data o]
  ∧ (stringFields (KeepassXCEntry.init u p l t n o)).map XElem.keyOf = sixKeys
  ∧ ∀ k : PyStr,
      serializeElem (stringFieldElem k none) = serializeElem (stringFieldElem k (some [])) :=
  ⟨stringFields_init u p l t n o, stringFields_keyOf_init u p l t n o,
   fun k => by cases k <;> rfl⟩

/-- C7: the claim (and the class docstring at lines 31-62) says only the
Password, Notes and otp values carry `ProtectInMemory`; but
`add_string_field` (line 87) sets `ProtectInMemory="True"` on the `Value`
of every field it creates, so all six fields of every built entry —
including Title, URL and UserName — carry the marking. -/
theorem pass_C7_eval (u p l t n o : Option PyStr) :
    (stringFields (KeepassXCEntry.init u p l t n o)).map XElem.valAttrs =
      [some [("ProtectInMemory".data, "True".data)],
       some [("ProtectInMemory".data, "True".data)],
       some [("ProtectInMemory".data, "True".data)],
       some [("ProtectInMemory".data, "True".data)],
       some [("ProtectInMemory".data, "True".data)],
       some [("ProtectInMemory".data, "True".data)]] := rfl

/-- C8: for every decrypted text blob, the password is the run of
characters before the first newline (the whole string when it has no
newline), regardless of content. -/
theorem pass_C8_first_line (src : PyStr) :
    (parse_pass_format src).1 = src.takeWhile (fun c => c != '\n') := by
  obtain ⟨l, ls, h1, h2⟩ := pySplitNl_cons src
  simp [parse_pass_format, h1, h2]

/-- C3 counterexample: a store holding one file whose gpg subprocess exits
with status 1 and an empty captured stdout.  The claim says the run aborts
with a non-zero exit and no entry is produced; instead the run exits 0 and
the group holds one entry (the group element's children are its `Name` plus
that entry). -/
theorem pass_C3_counterexample :
    (runMain [FsNode.file "gh.gpg".data ⟨1, []⟩]).2 = 0
  ∧ (runMain [FsNode.file "gh.gpg".data ⟨1, []⟩]).1.rootChildren.length = 1
  ∧ (XElem.children
        ((runMain [FsNode.file "gh.gpg".data ⟨1, []⟩]).1.rootChildren.headD emptyElem)).length
      = 2 := by
  refine ⟨rfl, by decide, by decide⟩

/-- C3 amended: a decryption subprocess failure is not detected at all:
`decrypt` ignores the exit status entirely (its result depends only on the
captured stdout bytes), a failing gpg run with empty captured output
decodes to the empty string, the driver then builds a normal entry (empty
password, url fallback) and adds the group, and the run still exits 0. -/
theorem pass_C3_amended (rc rc2 : Int) (bytes : List Nat) (d : KeepassXCDump)
    (name : PyStr) (rest : List FsNode) (h : name.head? ≠ some '.') :
    decrypt ⟨rc, bytes⟩ = decrypt ⟨rc2, bytes⟩
  ∧ decrypt ⟨rc, []⟩ = some []
  ∧ processTop d (FsNode.file name ⟨rc, []⟩ :: rest)
      = processTop
          (d.add_group (pyRemoveSuffix name ".gpg".data)
            [KeepassXCEntry.init none (some []) (some (pyRemoveSuffix name ".gpg".data))
              none (some []) none])
          rest
  ∧ (runMain (FsNode.file name ⟨rc, []⟩ :: rest)).2 = 0 := by
  have hnot : notHidden (FsNode.file name ⟨rc, []⟩) = true := by
    simp only [notHidden, FsNode.nodeName, bne_iff_ne, ne_eq]
    exact h
  have hdec : decrypt ⟨rc, []⟩ = some ([] : PyStr) := rfl
  have hparse : parse_pass_format ([] : PyStr) = ([], [], none, none, none) := by decide
  refine ⟨rfl, rfl, ?_, rfl⟩
  simp [processTop, hnot, hdec, hparse, pyOr]

/-- Witness for the amended C3 at a failing gpg run (`returncode` 1) on the
top-level file `gh.gpg`. -/
theorem pass_C3_amended_witness :
    ("gh.gpg".data : PyStr).head? ≠ some '.'
  ∧ (decrypt ⟨1, [255]⟩ = decrypt ⟨7, [255]⟩
  ∧ decrypt ⟨1, []⟩ = some []
  ∧ processTop KeepassXCDump.init [FsNode.file "gh.gpg".data ⟨1, []⟩]
      = processTop
          (KeepassXCDump.init.add_group (pyRemoveSuffix "gh.gpg".data ".gpg".data)
            [KeepassXCEntry.init none (some [])
              (some (pyRemoveSuffix "gh.gpg".data ".gpg".data)) none (some []) none])
          []
  ∧ (runMain (FsNode.file "gh.gpg".data ⟨1, []⟩ :: [])).2 = 0) :=
  ⟨by decide, pass_C3_amended 1 7 [255] KeepassXCDump.init "gh.gpg".data [] (by decide)⟩

/-- C4 counterexample: a top-level *standalone* file whose decrypted bytes
(`0xFF`) are not valid text.  The claim says the enclosing group is still
added (possibly empty); instead the `continue` on line 205 skips the
`add_group` on line 209, so no group at all is produced for that file —
while a sibling directory is still processed. -/
theorem pass_C4_counterexample :
    (runMain [FsNode.file "a.gpg".data ⟨0, [255]⟩]).1.rootChildren = []
  ∧ (runMain [FsNode.file "a.gpg".data ⟨0, [255]⟩, FsNode.dir "work".data []]).1.rootChildren
      = [XElem.mk "Group".data [] none [XElem.mk "Name".data [] (some "work".data) []]] := by
  have hbad : decrypt ⟨0, [255]⟩ = none := by decide
  have hn1 : notHidden (FsNode.file "a.gpg".data ⟨0, [255]⟩) = true := by decide
  have hn2 : notHidden (FsNode.dir "work".data []) = true := by decide
  have hs : pyRemoveSuffix "work".data ".gpg".data = "work".data := by decide
  constructor
  · rfl
  · simp [runMain, processTop, hbad, hn1, hn2, hs, find_files, processDirFiles,
      KeepassXCDump.init, KeepassXCDump.add_group, groupElem]

/-- C4 amended: an undecodable file inside a top-level directory yields zero
entries while the surrounding entries and the group itself are unaffected
(the group is added even when empty), but a *standalone* top-level
undecodable file is skipped together with its group — no group element is
added for it.  In both cases processing of the remaining siblings
continues unchanged. -/
theorem pass_C4_amended (l1 l2 : List (PyStr × PyStr × ProcResult)) (par nm : PyStr)
    (bad : ProcResult) (d : KeepassXCDump) (dname fname : PyStr) (cs : List FsNode)
    (rest : List FsNode) (hbad : decrypt bad = none)
    (hd : dname.head? ≠ some '.') (hf : fname.head? ≠ some '.') :
    processDirFiles (l1 ++ (par, nm, bad) :: l2) = processDirFiles (l1 ++ l2)
  ∧ processTop d (FsNode.dir dname cs :: rest)
      = processTop
          (d.add_group (pyRemoveSuffix dname ".gpg".data)
            (processDirFiles (find_files dname cs)))
          rest
  ∧ processTop d (FsNode.file fname bad :: rest) = processTop d rest := by
  have hnotd : notHidden (FsNode.dir dname cs) = true := by
    simp only [notHidden, FsNode.nodeName, bne_iff_ne, ne_eq]
    exact hd
  have hnotf : notHidden (FsNode.file fname bad) = true := by
    simp only [notHidden, FsNode.nodeName, bne_iff_ne, ne_eq]
    exact hf
  refine ⟨?_, by simp [processTop, hnotd], by simp [processTop, hnotf, hbad]⟩
  induction l1 with
  | nil => simp [processDirFiles, hbad]
  | cons p l1' ih =>
    obtain ⟨pp, pn, ppr⟩ := p
    cases hdp : decrypt ppr with
    | none => simp [processDirFiles, hdp, ih]
    | some c => simp [processDirFiles, hdp, ih]

/-- Witness for the amended C4: the undecodable file `a.gpg` (byte `0xFF`)
among the files of directory `work`, and the same file standing alone at
top level. -/
theorem pass_C4_amended_witness :
    decrypt ⟨0, [255]⟩ = none
  ∧ ("work".data : PyStr).head? ≠ some '.'
  ∧ ("a.gpg".data : PyStr).head? ≠ some '.'
  ∧ (processDirFiles ([] ++ ("work".data, "a.gpg".data, ⟨0, [255]⟩) :: [])
      = processDirFiles ([] ++ [])
  ∧ processTop KeepassXCDump.init [FsNode.dir "work".data []]
      = processTop
          (KeepassXCDump.init.add_group (pyRemoveSuffix "work".data ".gpg".data)
            (processDirFiles (find_files "work".data [])))
          []
  ∧ processTop KeepassXCDump.init [FsNode.file "a.gpg".data ⟨0, [255]⟩]
      = processTop KeepassXCDump.init []) :=
  ⟨by decide, by decide, by decide,
   pass_C4_amended [] [] "work".data "a.gpg".data ⟨0, [255]⟩ KeepassXCDump.init
     "work".data "a.gpg".data [] [] (by decide) (by decide) (by decide)⟩

/-- C5 counterexample: the standalone top-level file `github.gpg` with
record `"pw\nlogin: bob"`.  The claim says Title and UserName are derived
from the file's base name (`github`); instead the standalone branch (line
206) takes the *parsed* `login:` value, so UserName and Title are both
`bob` — only the URL fallback and the group name use `github`. -/
theorem pass_C5_counterexample :
    fieldVals
        (((XElem.children
            ((runMain [FsNode.file "github.gpg".data
                ⟨0, [112, 119, 10, 108, 111, 103, 105, 110, 58, 32, 98, 111,
                  98]⟩]).1.rootChildren.headD emptyElem)).drop 1).headD emptyElem)
      = [some [], some "bob".data, some "pw".data, some "github".data, some "bob".data, none]
  ∧ (XElem.text
        ((XElem.children
            ((runMain [FsNode.file "github.gpg".data
                ⟨0, [112, 119, 10, 108, 111, 103, 105, 110, 58, 32, 98, 111,
                  98]⟩]).1.rootChildren.headD emptyElem)).headD emptyElem))
      = some "github".data := by
  refine ⟨by decide, by decide⟩

/-- C5 amended: a decodable standalone top-level file produces one group,
named after the file with `.gpg` stripped, holding exactly one entry whose
URL is the parsed url or, when that is absent or empty, the suffix-stripped
file name — but whose UserName and Title are both the *parsed* `login:`
value (`None` when the record has no `login:` line), not the file's base
name. -/
theorem pass_C5_amended (d : KeepassXCDump) (name : PyStr) (proc : ProcResult) (s : PyStr)
    (rest : List FsNode) (h : name.head? ≠ some '.') (hdec : decrypt proc = some s) :
    processTop d (FsNode.file name proc :: rest)
      = processTop
          (d.add_group (pyRemoveSuffix name ".gpg".data)
            [KeepassXCEntry.init (parse_pass_format s).2.2.2.1
              (some (parse_pass_format s).1)
              (some (pyOr (parse_pass_format s).2.2.2.2 (pyRemoveSuffix name ".gpg".data)))
              (parse_pass_format s).2.2.2.1
              (some (parse_pass_format s).2.1)
              (parse_pass_format s).2.2.1])
          rest := by
  have hnot : notHidden (FsNode.file name proc) = true := by
    simp only [notHidden, FsNode.nodeName, bne_iff_ne, ne_eq]
    exact h
  rcases hp : parse_pass_format s with ⟨pw, nt, tp, un, ur⟩
  simp [processTop, hnot, hdec, hp]

/-- Witness for the amended C5 at the standalone file `github.gpg` whose
record is `"pw\nlogin: bob"`. -/
theorem pass_C5_amended_witness :
    ("github.gpg".data : PyStr).head? ≠ some '.'
  ∧ decrypt ⟨0, [112, 119, 10, 108, 111, 103, 105, 110, 58, 32, 98, 111, 98]⟩
      = some "pw\nlogin: bob".data
  ∧ processTop KeepassXCDump.init
        [FsNode.file "github.gpg".data
          ⟨0, [112, 119, 10, 108, 111, 103, 105, 110, 58, 32, 98, 111, 98]⟩]
      = processTop
          (KeepassXCDump.init.add_group (pyRemoveSuffix "github.gpg".data ".gpg".data)
            [KeepassXCEntry.init (parse_pass_format "pw\nlogin: bob".data).2.2.2.1
              (some (parse_pass_format "pw\nlogin: bob".data).1)
              (some (pyOr (parse_pass_format "pw\nlogin: bob".data).2.2.2.2
                (pyRemoveSuffix "github.gpg".data ".gpg".data)))
              (parse_pass_format "pw\nlogin: bob".data).2.2.2.1
              (some (parse_pass_format "pw\nlogin: bob".data).2.1)
              (parse_pass_format "pw\nlogin: bob".data).2.2.1])
          [] :=
  ⟨by decide, by decide,
   pass_C5_amended KeepassXCDump.init "github.gpg".data
     ⟨0, [112, 119, 10, 108, 111, 103, 105, 110, 58, 32, 98, 111, 98]⟩
     "pw\nlogin: bob".data [] (by decide) (by decide)⟩

/-- Accumulator form of `buildDump`: folding `add_group` appends the group
elements in call order. -/
lemma buildDump_go (gs : List (PyStr × List XElem)) :
    ∀ d : KeepassXCDump,
      (gs.foldl (fun d pr => d.add_group pr.1 pr.2) d).rootChildren
        = d.rootChildren ++ gs.map (fun pr => groupElem pr.1 pr.2) := by
  induction gs with
  | nil => intro d; simp
  | cons g gs ih =>
    intro d
    rw [List.foldl_cons, ih]
    simp [KeepassXCDump.add_group]

/-- C9: after N `add_group` calls the document tree is the fixed
`KeePassFile`/`Root` container around the single root group named `Root`,
whose remaining children are exactly the N group elements in insertion
order; and every entry that was built by `KeepassXCEntry.__init__` carries
exactly the six fixed field keys in fixed order.  Serialization
(`KeepassXCDump.dumpStr`) is a pure function of this tree. -/
theorem pass_C9_round_trip (gs : List (PyStr × List XElem))
    (h : ∀ pr ∈ gs, ∀ e ∈ pr.2, isBuiltEntry e) :
    (buildDump gs).toElem
      = XElem.mk "KeePassFile".data [] none
          [XElem.mk "Root".data [] none
            [XElem.mk "Group".data [] none
              (XElem.mk "Name".data [] (some "Root".data) []
                :: gs.map (fun pr => groupElem pr.1 pr.2))]]
  ∧ (buildDump gs).rootChildren.length = gs.length
  ∧ ∀ pr ∈ gs, ∀ e ∈ pr.2, (stringFields e).map XElem.keyOf = sixKeys := by
  have hrc : (buildDump gs).rootChildren = gs.map (fun pr => groupElem pr.1 pr.2) := by
    simpa [buildDump, KeepassXCDump.init] using buildDump_go gs KeepassXCDump.init
  refine ⟨?_, ?_, ?_⟩
  · simp [KeepassXCDump.toElem, hrc]
  · simp [hrc]
  · intro pr hpr e he
    obtain ⟨u, p, l, t, n, o, rfl⟩ := h pr hpr e he
    exact stringFields_keyOf_init u p l t n o

/-- Witness for C9 at one group `work` holding one built entry. -/
theorem pass_C9_round_trip_witness :
    (∀ pr ∈ ([("work".data,
          [KeepassXCEntry.init (some "alice".data) (some "pw".data) (some "work".data)
            (some "alice".data) (some []) none])] : List (PyStr × List XElem)),
        ∀ e ∈ pr.2, isBuiltEntry e)
  ∧ ((buildDump [("work".data,
          [KeepassXCEntry.init (some "alice".data) (some "pw".data) (some "work".data)
            (some "alice".data) (some []) none])]).toElem
      = XElem.mk "KeePassFile".data [] none
          [XElem.mk "Root".data [] none
            [XElem.mk "Group".data [] none
              (XElem.mk "Name".data [] (some "Root".data) []
                :: ([("work".data,
                      [KeepassXCEntry.init (some "alice".data) (some "pw".data)
                        (some "work".data) (some "alice".data) (some []) none])] :
                      List (PyStr × List XElem)).map (fun pr => groupElem pr.1 pr.2))]]
  ∧ (buildDump [("work".data,
        [KeepassXCEntry.init (some "alice".data) (some "pw".data) (some "work".data)
          (some "alice".data) (some []) none])]).rootChildren.length
      = ([("work".data,
            [KeepassXCEntry.init (some "alice".data) (some "pw".data) (some "work".data)
              (some "alice".data) (some []) none])] : List (PyStr × List XElem)).length
  ∧ ∀ pr ∈ ([("work".data,
        [KeepassXCEntry.init (some "alice".data) (some "pw".data) (some "work".data)
          (some "alice".data) (some []) none])] : List (PyStr × List XElem)),
      ∀ e ∈ pr.2, (stringFields e).map XElem.keyOf = sixKeys) := by
  have hh : ∀ pr ∈ ([("work".data,
        [KeepassXCEntry.init (some "alice".data) (some "pw".data) (some "work".data)
          (some "alice".data) (some []) none])] : List (PyStr × List XElem)),
      ∀ e ∈ pr.2, isBuiltEntry e := by
    intro pr hpr e he
    simp only [List.mem_singleton] at hpr
    subst hpr
    simp only [List.mem_singleton] at he
    subst he
    exact ⟨some "alice".data, some "pw".data, some "work".data, some "alice".data,
      some [], none, rfl⟩
  exact ⟨hh, pass_C9_round_trip _ hh⟩

/-- C10: whenever `sys.argv` is nonempty — which it always is at runtime,
since index 0 holds the program name — the guard `len(sys.argv) < 1` is
false, so the `sys.exit(1)` branch never runs; and when no positional
argument is given (`len(sys.argv) == 1`), reading `sys.argv[1]` finds no
element, i.e. raises an uncaught `IndexError`. -/
theorem pass_C10_argv_guard (argv : List PyStr) (h : argv ≠ []) :
    main_argc_check argv = false ∧ (argv.length = 1 → main_store_dir argv = none) := by
  constructor
  · cases argv with
    | nil => exact absurd rfl h
    | cons a l => simp [main_argc_check]
  · intro hlen
    cases argv with
    | nil => exact absurd rfl h
    | cons a l =>
      cases l with
      | nil => rfl
      | cons b m => simp at hlen

/-- Witness for C10 at the one-element argument vector `["prog"]`. -/
theorem pass_C10_argv_guard_witness :
    (["prog".data] : List PyStr) ≠ []
  ∧ main_argc_check ["prog".data] = false
  ∧ (["prog".data].length = 1 → main_store_dir ["prog".data] = none) :=
  ⟨by decide, pass_C10_argv_guard ["prog".data] (by decide)⟩
